import Mathlib

/-!
Verification of the Goblet load-test harness (loadtest/loadtest.py).

Shallow embedding conventions:
- byte strings are `List Nat` of byte values (all source literals are ASCII);
- Python floats are modelled as exact rationals;
- code that can raise is modelled with `Option` / `Except`: a `none` or
  `Except.error` value stands for a raised exception.
-/

namespace Goblet

/-- Byte values of an ASCII string literal. -/
def strBytes (s : String) : List Nat := s.data.map Char.toNat

/-- Lowercase hexadecimal digit byte for a value below 16. -/
def hexDigit (n : Nat) : Nat := if n < 10 then 48 + n else 87 + n

/-- Hex digits of a number, least significant first, computed with fuel so
that the definition reduces in the kernel. -/
def toHexRevAux : Nat → Nat → List Nat
  | 0, _ => []
  | fuel + 1, n => if n = 0 then [] else hexDigit (n % 16) :: toHexRevAux fuel (n / 16)

/-- Hex digits of a number, least significant first (empty for 0). -/
def toHexRev (n : Nat) : List Nat := toHexRevAux n n

/-- Bytes of the Python format `f"{n:04x}"`: lowercase hex, left-padded with
ASCII zeros to at least four characters. -/
def pyHex04x (n : Nat) : List Nat :=
  let ds := (toHexRev n).reverse
  List.replicate (4 - ds.length) 48 ++ ds

/-- A well-formed pkt-line chunk: its first four bytes are the lowercase
4-digit hex rendering of the total chunk length (4-byte prefix included). -/
@[reducible] def pktLineOk (chunk : List Nat) : Prop :=
  chunk.take 4 = pyHex04x chunk.length

/-- An HTTP response as far as the client inspects it: status code, body
bytes, and the optional X-Served-By header. -/
structure HttpResponse where
  status_code : Nat
  content : List Nat
  x_served_by : Option String
deriving DecidableEq

/-- headers.get applied to X-Served-By with default empty string. -/
def servedByHeader (r : HttpResponse) : String := r.x_served_by.getD ""

/-- The tuple (success, duration_ms, served_by, error) returned by the
client methods. -/
structure CallResult where
  success : Bool
  duration_ms : ℚ
  served_by : String
  error : String
deriving DecidableEq

namespace GitProtocolV2Client

/-- The fixed ls-refs request payload, literal for literal as in the source
(loadtest.py lines 50-58). -/
def ls_refs_payload : List Nat :=
  strBytes "0014command=ls-refs\n" ++
  strBytes "0001" ++
  strBytes "0009peel\n" ++
  strBytes "000csymrefs\n" ++
  strBytes "000bunborn\n" ++
  strBytes "0014ref-prefix refs/\n" ++
  strBytes "0000"

/-- Outcome handling of ls_refs (loadtest.py lines 66-84): the transport
either raises (`Except.error` with the exception text) or yields a response;
non-200 status and empty body are failures, otherwise success. -/
def ls_refs (resp : Except String HttpResponse) (duration_ms : ℚ) : CallResult :=
  match resp with
  | .error e => ⟨false, duration_ms, "", e⟩
  | .ok r =>
    if r.status_code ≠ 200 then ⟨false, duration_ms, "", "HTTP " ++ toString r.status_code⟩
    else if r.content.length = 0 then ⟨false, duration_ms, "", "Empty response"⟩
    else ⟨true, duration_ms, servedByHeader r, ""⟩

/-- The want line of the fetch payload: b"want " + ref + b"\n"
(loadtest.py line 94), over the UTF-8 bytes of want_ref. -/
def want_line (want_ref : List Nat) : List Nat := strBytes "want " ++ want_ref ++ [10]

/-- The want pkt-line chunk: computed hex prefix followed by the want line
(loadtest.py lines 100-101). -/
def wantChunk (want_ref : List Nat) : List Nat :=
  pyHex04x ((want_line want_ref).length + 4) ++ want_line want_ref

/-- The fetch request payload, literal for literal as in the source
(loadtest.py lines 94-104). -/
def fetch_payload (want_ref : List Nat) : List Nat :=
  strBytes "0011command=fetch\n" ++
  strBytes "0001" ++
  strBytes "000cthin-pack\n" ++
  strBytes "000cofs-delta\n" ++
  wantChunk want_ref ++
  strBytes "0000" ++
  strBytes "0009done\n" ++
  strBytes "0000"

/-- Outcome handling of fetch (loadtest.py lines 112-127): unlike ls_refs,
the body is not inspected; any 200 response counts as success. -/
def fetch (resp : Except String HttpResponse) (duration_ms : ℚ) : CallResult :=
  match resp with
  | .error e => ⟨false, duration_ms, "", e⟩
  | .ok r =>
    if r.status_code ≠ 200 then ⟨false, duration_ms, "", "HTTP " ++ toString r.status_code⟩
    else ⟨true, duration_ms, servedByHeader r, ""⟩

end GitProtocolV2Client

/-- One outcome per issued request (loadtest.py lines 23-31). -/
structure TestResult where
  success : Bool
  duration_ms : ℚ
  repo : String
  operation : String
  served_by : String := ""
  error : String := ""
deriving DecidableEq

/-- The environment of one request inside a worker iteration: the random
repository index, the operation draw (random.random() < 0.8 means ls-refs),
and the transport outcome with its measured wall-clock duration. -/
structure RequestPlan (numRepos : Nat) where
  repoIdx : Fin numRepos
  opIsLsRefs : Bool
  resp : Except String HttpResponse
  duration_ms : ℚ

namespace LoadTestRunner

/-- Worker loop (loadtest.py lines 148-195): requests_per_worker sequential
requests, each building exactly one TestResult from the chosen repository,
operation and transport outcome. The think-time sleep and the progress
print do not affect the produced results. -/
def worker_task (repos : List String) (requests_per_worker : Nat)
    (plan : Nat → RequestPlan repos.length) : List TestResult :=
  (List.range requests_per_worker).map fun i =>
    let p := plan i
    let repo := repos.get p.repoIdx
    if p.opIsLsRefs then
      let c := GitProtocolV2Client.ls_refs p.resp p.duration_ms
      { success := c.success, duration_ms := c.duration_ms, repo := repo,
        operation := "ls-refs", served_by := c.served_by, error := c.error }
    else
      let c := GitProtocolV2Client.fetch p.resp p.duration_ms
      { success := c.success, duration_ms := c.duration_ms, repo := repo,
        operation := "fetch", served_by := c.served_by, error := c.error }

/-- The merged result collection of run (loadtest.py lines 207-222): each
completed worker appends its whole result list. Completion order may
permute the worker blocks; the embedding fixes submission order, which is
adequate for the counting and aggregation claims. -/
def run_results (repos : List String) (num_workers requests_per_worker : Nat)
    (plans : Nat → Nat → RequestPlan repos.length) : List TestResult :=
  ((List.range num_workers).map fun w =>
    worker_task repos requests_per_worker (plans w)).flatten

/-- Dictionary update d[k] = d.get(k, 0) + 1 on an insertion-ordered
association list. -/
def bump (m : List (String × Nat)) (k : String) : List (String × Nat) :=
  match m with
  | [] => [(k, 1)]
  | (k₁, v) :: rest => if k₁ = k then (k₁, v + 1) :: rest else (k₁, v) :: bump rest k

/-- Sum of the counter values of a distribution dictionary. -/
def sumVals (m : List (String × Nat)) : Nat := (m.map Prod.snd).sum

/-- Python sorted() on rationals, ascending. -/
def sortedAsc (l : List ℚ) : List ℚ := l.insertionSort (· ≤ ·)

/-- The percentile index int(n * p) of the source (loadtest.py lines 256
and 261); the float product is modelled exactly and truncation of a
non-negative value is the floor. -/
def pctIndex (n : Nat) (p : ℚ) : Nat := (⌊(n : ℚ) * p⌋).toNat

/-- Python min over a non-empty list (the empty case is unreachable behind
the guard in the statistics computation). -/
def listMin : List ℚ → ℚ
  | [] => 0
  | x :: xs => xs.foldl min x

/-- Python max over a non-empty list. -/
def listMax : List ℚ → ℚ
  | [] => 0
  | x :: xs => xs.foldl max x

/-- statistics.median: middle element of the sorted list, or the average of
the two middle elements for even length. -/
def median (l : List ℚ) : ℚ :=
  let s := sortedAsc l
  let n := l.length
  if n % 2 = 1 then s.getD (n / 2) 0
  else (s.getD (n / 2 - 1) 0 + s.getD (n / 2) 0) / 2

/-- The duration_ms block of the statistics dictionary (loadtest.py lines
250-265), each entry guarded by `if durations else 0`. -/
structure DurationStats where
  min : ℚ
  max : ℚ
  mean : ℚ
  median : ℚ
  p95 : ℚ
  p99 : ℚ
deriving DecidableEq

/-- Field-by-field translation of loadtest.py lines 250-265. -/
def duration_stats (durations : List ℚ) : DurationStats :=
  { min := if durations = [] then 0 else listMin durations
    max := if durations = [] then 0 else listMax durations
    mean := if durations = [] then 0 else durations.sum / (durations.length : ℚ)
    median := if durations = [] then 0 else median durations
    p95 := if durations = [] then 0
           else (sortedAsc durations).getD (pctIndex durations.length (95 / 100)) 0
    p99 := if durations = [] then 0
           else (sortedAsc durations).getD (pctIndex durations.length (99 / 100)) 0 }

/-- The statistics dictionary (loadtest.py lines 243-269). -/
structure Stats where
  total_requests : Nat
  successful : Nat
  failed : Nat
  success_rate : ℚ
  total_duration_sec : ℚ
  requests_per_sec : ℚ
  duration_ms : DurationStats
  server_distribution : List (String × Nat)
  repo_distribution : List (String × Nat)
  errors : List (String × Nat)
deriving DecidableEq

/-- _compute_statistics (loadtest.py lines 224-275). The divisions
len(successful) / total_requests and total_requests / total_duration raise
ZeroDivisionError when their denominator is zero, modelled by `none`. -/
def compute_statistics (results : List TestResult) (total_duration : ℚ) :
    Option Stats :=
  let total_requests := results.length
  let successful := results.filter (·.success)
  let failed := results.filter (fun r => !r.success)
  let durations := successful.map (·.duration_ms)
  let server_counts := results.foldl
    (fun m r => if r.served_by != "" then bump m r.served_by else m) []
  let repo_requests := results.foldl (fun m r => bump m r.repo) []
  let error_counts := failed.foldl (fun m r => bump m r.error) []
  if total_requests = 0 ∨ total_duration = 0 then none
  else some
    { total_requests := total_requests
      successful := successful.length
      failed := failed.length
      success_rate := (successful.length : ℚ) / (total_requests : ℚ) * 100
      total_duration_sec := total_duration
      requests_per_sec := (total_requests : ℚ) / total_duration
      duration_ms := duration_stats durations
      server_distribution := server_counts
      repo_distribution := repo_requests
      errors := error_counts }

/-- A sample successful result used to instantiate universally quantified
theorems at a concrete input. -/
def sampleResult : TestResult := ⟨true, 1, "a", "ls-refs", "s", ""⟩

/-- The statistics computed from [sampleResult] with total duration 1. -/
def sampleStats : Stats :=
  ⟨1, 1, 0, 100, 1, 1, ⟨1, 1, 1, 1, 1, 1⟩, [("s", 1)], [("a", 1)], []⟩

/-- A constant request plan over the one-repository list ["a"]: every
request is a successful ls-refs taking 1 ms, served by "s". -/
def samplePlan : Nat → Nat → RequestPlan ((["a"] : List String).length) :=
  fun _ _ => ⟨⟨0, Nat.zero_lt_one⟩, true, .ok ⟨200, [1], some "s"⟩, 1⟩

/-- The statistics of a 2-worker, 5-requests-each run under samplePlan. -/
def sampleStats10 : Stats :=
  ⟨10, 10, 0, 100, 1, 10, ⟨1, 1, 1, 1, 1, 1⟩, [("s", 10)], [("a", 10)], []⟩

end LoadTestRunner

namespace LoadTestRunner

/-- Splitting a list by a boolean predicate preserves its length. -/
theorem length_filter_add_not {α : Type} (p : α → Bool) (l : List α) :
    (l.filter p).length + (l.filter (fun x => !p x)).length = l.length := by
  induction l with
  | nil => rfl
  | cons x xs ih => cases hx : p x <;> simp [List.filter_cons, hx] <;> omega

/-- Unfolding the count total over a cons cell. -/
theorem sumVals_cons (k : String) (v : Nat) (m : List (String × Nat)) :
    sumVals ((k, v) :: m) = v + sumVals m := by
  simp [sumVals]

/-- A bump adds exactly one to the total count of a distribution. -/
theorem sumVals_bump (m : List (String × Nat)) (k : String) :
    sumVals (bump m k) = sumVals m + 1 := by
  induction m with
  | nil => rfl
  | cons hd rest ih =>
    obtain ⟨k₁, v⟩ := hd
    by_cases hk : k₁ = k
    · simp [bump, hk, sumVals_cons]
      omega
    · simp [bump, hk, sumVals_cons, ih]
      omega

/-- Folding a bump per element adds the list length to the total count. -/
theorem sumVals_foldl_bump (f : TestResult → String) (l : List TestResult) :
    ∀ m, sumVals (l.foldl (fun m r => bump m (f r)) m) = sumVals m + l.length := by
  induction l with
  | nil => intro m; simp
  | cons x xs ih =>
    intro m
    simp only [List.foldl_cons, List.length_cons]
    rw [ih (bump m (f x)), sumVals_bump]
    omega

/-- Folding a guarded bump counts exactly the results with a non-empty
served_by value. -/
theorem sumVals_foldl_bump_served (l : List TestResult) :
    ∀ m, sumVals (l.foldl
        (fun m r => if r.served_by != "" then bump m r.served_by else m) m)
      = sumVals m + (l.filter (fun r => r.served_by != "")).length := by
  induction l with
  | nil => intro m; simp
  | cons x xs ih =>
    intro m
    simp only [List.foldl_cons, List.filter_cons]
    cases hx : (x.served_by != "") with
    | false =>
      simp only [hx, Bool.false_eq_true, ite_false, if_neg]
      rw [ih]
    | true =>
      simp only [hx, ite_true, if_pos]
      rw [ih, sumVals_bump]
      simp only [List.length_cons]
      omega

/-- The ascending sort used by the statistics keeps the list length. -/
theorem sortedAsc_length (l : List ℚ) : (sortedAsc l).length = l.length :=
  List.length_insertionSort _ l

/-- The percentile index of a rational ratio of naturals is the natural
division of the scaled length. -/
theorem pctIndex_div (a b n : Nat) :
    pctIndex n ((a : ℚ) / (b : ℚ)) = a * n / b := by
  unfold pctIndex
  rw [Int.floor_toNat]
  have h : (n : ℚ) * ((a : ℚ) / (b : ℚ)) = ((a * n : ℕ) : ℚ) / ((b : ℕ) : ℚ) := by
    push_cast
    ring
  rw [h, Nat.floor_div_nat, Nat.floor_natCast]

/-- int(n * 0.95) equals 95 * n / 100 in natural division. -/
theorem pctIndex95 (n : Nat) : pctIndex n (95 / 100) = 95 * n / 100 := by
  have h := pctIndex_div 95 100 n
  norm_num at h ⊢
  exact h

/-- int(n * 0.99) equals 99 * n / 100 in natural division. -/
theorem pctIndex99 (n : Nat) : pctIndex n (99 / 100) = 99 * n / 100 := by
  have h := pctIndex_div 99 100 n
  norm_num at h ⊢
  exact h

/-- Summing a constant over the range of workers. -/
theorem sum_map_const_range (N R : Nat) :
    ((List.range N).map (fun _ => R)).sum = N * R := by
  induction N with
  | zero => simp
  | succ n ih => rw [List.range_succ]; simp [ih, Nat.succ_mul]

/-- Characterization of a defined statistics computation: the input was
non-empty, the duration non-zero, and every field has its source value. -/
theorem compute_statistics_some {results : List TestResult} {d : ℚ} {st : Stats}
    (h : compute_statistics results d = some st) :
    results.length ≠ 0 ∧ d ≠ 0
    ∧ st.total_requests = results.length
    ∧ st.successful = (results.filter (·.success)).length
    ∧ st.failed = (results.filter (fun r => !r.success)).length
    ∧ st.success_rate
        = ((results.filter (·.success)).length : ℚ) / (results.length : ℚ) * 100
    ∧ st.duration_ms
        = duration_stats ((results.filter (·.success)).map (·.duration_ms))
    ∧ st.server_distribution
        = results.foldl
            (fun m r => if r.served_by != "" then bump m r.served_by else m) []
    ∧ st.repo_distribution = results.foldl (fun m r => bump m r.repo) []
    ∧ st.errors
        = (results.filter (fun r => !r.success)).foldl
            (fun m r => bump m r.error) [] := by
  simp only [compute_statistics] at h
  split at h
  · exact absurd h (by simp)
  · rename_i hc
    push_neg at hc
    obtain rfl : _ = st := Option.some.inj h
    exact ⟨hc.1, hc.2, rfl, rfl, rfl, rfl, rfl, rfl, rfl, rfl⟩

/-- C1 counterexample: with zero results the statistics computation does
not return success_rate 0; the division raises (modelled by none). -/
theorem compute_statistics_empty_raises :
    compute_statistics ([] : List TestResult) 1 = none := by decide

/-- C1 (amended): with zero total requests the statistics computation
raises a division error (returns no statistics); whenever statistics are
produced, success_rate equals successes divided by total_requests times
100, and lies in [0, 100]. -/
theorem success_rate_formula :
    (∀ d : ℚ, compute_statistics [] d = none)
    ∧ ∀ (results : List TestResult) (d : ℚ) (st : Stats),
        compute_statistics results d = some st →
          st.success_rate
              = ((results.filter (·.success)).length : ℚ) / (results.length : ℚ) * 100
          ∧ 0 ≤ st.success_rate ∧ st.success_rate ≤ 100 := by
  constructor
  · intro d
    simp [compute_statistics]
  · intro results d st h
    obtain ⟨hlen, -, -, -, -, hrate, -⟩ := compute_statistics_some h
    have hpos : (0 : ℚ) < (results.length : ℚ) := by
      exact_mod_cast Nat.pos_of_ne_zero hlen
    have hle : ((results.filter (·.success)).length : ℚ) ≤ (results.length : ℚ) := by
      exact_mod_cast List.length_filter_le _ _
    refine ⟨hrate, ?_, ?_⟩
    · rw [hrate]
      positivity
    · rw [hrate]
      calc ((results.filter (·.success)).length : ℚ) / (results.length : ℚ) * 100
          ≤ (results.length : ℚ) / (results.length : ℚ) * 100 := by gcongr
        _ = 100 := by rw [div_self (ne_of_gt hpos), one_mul]

/-- C1 witness: the amended theorem applied at concrete inputs. -/
theorem success_rate_formula_witness :
    compute_statistics ([] : List TestResult) 2 = none
    ∧ (sampleStats.success_rate
          = ((([sampleResult].filter (·.success)).length : ℚ)
              / (([sampleResult] : List TestResult).length : ℚ) * 100)
        ∧ 0 ≤ sampleStats.success_rate ∧ sampleStats.success_rate ≤ 100) :=
  ⟨success_rate_formula.1 2,
   success_rate_formula.2 [sampleResult] 1 sampleStats (by
    norm_num [compute_statistics, duration_stats, pctIndex, sortedAsc, median,
      listMin, listMax, bump, sampleResult, sampleStats, Int.floor_eq_iff]
    decide)⟩

/-- C2 counterexample: a 200 response with an empty body is counted a
success by fetch, with an empty error string, contrary to the claim that
both client operations fail on an empty body with "Empty response". -/
theorem fetch_empty_body_counted_success :
    (GitProtocolV2Client.fetch (.ok ⟨200, [], none⟩) 1).success = true
    ∧ (GitProtocolV2Client.fetch (.ok ⟨200, [], none⟩) 1).error = "" := by
  decide

/-- C2 (amended): ls_refs succeeds exactly on a 200 status with non-empty
body, and an empty 200 body yields the failure "Empty response"; fetch
succeeds exactly on a 200 status with no empty-body check; a transport
exception fails both with the exception text as error. -/
theorem client_success_conditions :
    (∀ (r : HttpResponse) (d : ℚ),
        ((GitProtocolV2Client.ls_refs (.ok r) d).success = true
            ↔ r.status_code = 200 ∧ r.content ≠ [])
        ∧ ((GitProtocolV2Client.fetch (.ok r) d).success = true
            ↔ r.status_code = 200))
    ∧ (∀ (hdr : Option String) (d : ℚ),
        GitProtocolV2Client.ls_refs (.ok ⟨200, [], hdr⟩) d
          = ⟨false, d, "", "Empty response"⟩)
    ∧ ∀ (e : String) (d : ℚ),
        (GitProtocolV2Client.ls_refs (.error e) d).success = false
        ∧ (GitProtocolV2Client.ls_refs (.error e) d).error = e
        ∧ (GitProtocolV2Client.fetch (.error e) d).success = false
        ∧ (GitProtocolV2Client.fetch (.error e) d).error = e := by
  refine ⟨?_, ?_, ?_⟩
  · intro r d
    constructor
    · simp only [GitProtocolV2Client.ls_refs]
      split_ifs with h1 h2
      · simp_all
      · simp_all [List.length_eq_zero]
      · simp_all [List.length_eq_zero]
    · simp only [GitProtocolV2Client.fetch]
      split_ifs with h1
      · simp_all
      · simp_all
  · intro hdr d
    rfl
  · intro e d
    exact ⟨rfl, rfl, rfl, rfl⟩

/-- C2 witness: the empty-body branch of ls_refs at a concrete header. -/
theorem client_success_conditions_witness :
    GitProtocolV2Client.ls_refs (.ok ⟨200, [], some "x"⟩) 3
      = ⟨false, 3, "", "Empty response"⟩ :=
  client_success_conditions.2.1 (some "x") 3

/-- C9: whenever ls_refs or fetch reports failure, the served_by field is
empty, even when the response carries an X-Served-By header. -/
theorem served_by_empty_on_failure :
    ∀ (resp : Except String HttpResponse) (d : ℚ),
      ((GitProtocolV2Client.ls_refs resp d).success = false →
        (GitProtocolV2Client.ls_refs resp d).served_by = "")
      ∧ ((GitProtocolV2Client.fetch resp d).success = false →
        (GitProtocolV2Client.fetch resp d).served_by = "") := by
  intro resp d
  cases resp with
  | error e => exact ⟨fun _ => rfl, fun _ => rfl⟩
  | ok r =>
    constructor
    · simp only [GitProtocolV2Client.ls_refs]
      split_ifs <;> simp
    · simp only [GitProtocolV2Client.fetch]
      split_ifs <;> simp

/-- C9 witness: a 404 response with an X-Served-By header present still
yields an empty served_by on both operations. -/
theorem served_by_empty_on_failure_witness :
    (GitProtocolV2Client.ls_refs (.ok ⟨404, [1], some "cache-1"⟩) 1).served_by = ""
    ∧ (GitProtocolV2Client.fetch (.ok ⟨404, [1], some "cache-1"⟩) 1).served_by = "" :=
  ⟨(served_by_empty_on_failure (.ok ⟨404, [1], some "cache-1"⟩) 1).1 (by decide),
   (served_by_empty_on_failure (.ok ⟨404, [1], some "cache-1"⟩) 1).2 (by decide)⟩

end LoadTestRunner

/-- Bounded inputs produce boundedly many hex digits. -/
theorem toHexRevAux_length_le :
    ∀ (fuel n k : Nat), n < 16 ^ k → (toHexRevAux fuel n).length ≤ k := by
  intro fuel
  induction fuel with
  | zero => intro n k _; simp [toHexRevAux]
  | succ fuel ih =>
    intro n k hn
    simp only [toHexRevAux]
    split
    · simp
    · rename_i hz
      cases k with
      | zero => simp at hn; omega
      | succ k =>
        simp only [List.length_cons, Nat.succ_le_succ_iff]
        refine ih (n / 16) k ?_
        rw [Nat.div_lt_iff_lt_mul (by norm_num)]
        calc n < 16 ^ (k + 1) := hn
          _ = 16 ^ k * 16 := by rw [pow_succ]

/-- Below 0x10000 the Python 04x format yields exactly four characters. -/
theorem pyHex04x_length_eq_four {n : Nat} (h : n < 65536) :
    (pyHex04x n).length = 4 := by
  have hle : (toHexRev n).length ≤ 4 :=
    toHexRevAux_length_le n n 4 (by norm_num; omega)
  simp only [pyHex04x, List.length_append, List.length_replicate,
    List.length_reverse]
  omega

/-- C3: in the fixed ls-refs payload, the command=ls-refs, peel, symrefs
and unborn pkt-lines carry correct length prefixes, but the ref-prefix
line does not: it is 21 bytes long (content 17 plus prefix 4), which
renders as 0015, while the code writes 0014. -/
theorem ls_refs_pkt_line_lengths :
    pktLineOk (strBytes "0014command=ls-refs\n")
    ∧ pktLineOk (strBytes "0009peel\n")
    ∧ pktLineOk (strBytes "000csymrefs\n")
    ∧ pktLineOk (strBytes "000bunborn\n")
    ∧ ¬ pktLineOk (strBytes "0014ref-prefix refs/\n")
    ∧ (strBytes "0014ref-prefix refs/\n").length = 21
    ∧ (strBytes "0014ref-prefix refs/\n").take 4 = pyHex04x 20
    ∧ pyHex04x 21 = strBytes "0015"
    ∧ GitProtocolV2Client.ls_refs_payload
        = strBytes "0014command=ls-refs\n" ++ strBytes "0001"
          ++ strBytes "0009peel\n" ++ strBytes "000csymrefs\n"
          ++ strBytes "000bunborn\n" ++ strBytes "0014ref-prefix refs/\n"
          ++ strBytes "0000" := by
  decide

/-- C4: in the fixed part of the fetch payload only the done pkt-line has
a correct length prefix; the command=fetch line is 18 bytes but declares
0x0011 = 17, and the thin-pack and ofs-delta lines are 14 bytes each but
declare 0x000c = 12. -/
theorem fetch_pkt_line_lengths :
    ¬ pktLineOk (strBytes "0011command=fetch\n")
    ∧ (strBytes "0011command=fetch\n").length = 18
    ∧ pyHex04x 18 = strBytes "0012"
    ∧ ¬ pktLineOk (strBytes "000cthin-pack\n")
    ∧ (strBytes "000cthin-pack\n").length = 14
    ∧ pyHex04x 14 = strBytes "000e"
    ∧ ¬ pktLineOk (strBytes "000cofs-delta\n")
    ∧ (strBytes "000cofs-delta\n").length = 14
    ∧ pktLineOk (strBytes "0009done\n") := by
  decide

/-- C5: for every want_ref byte string the fetch payload embeds a want
pkt-line whose prefix is the 04x rendering of the line length plus 4; the
line length is the ref length plus 6, encoding is total, and whenever the
declared length fits in four hex digits the chunk is a well-formed
pkt-line. -/
theorem want_pkt_line_correct (want_ref : List Nat) :
    GitProtocolV2Client.fetch_payload want_ref
      = strBytes "0011command=fetch\n" ++ strBytes "0001"
        ++ strBytes "000cthin-pack\n" ++ strBytes "000cofs-delta\n"
        ++ GitProtocolV2Client.wantChunk want_ref ++ strBytes "0000"
        ++ strBytes "0009done\n" ++ strBytes "0000"
    ∧ GitProtocolV2Client.wantChunk want_ref
        = pyHex04x ((strBytes "want " ++ want_ref ++ [10]).length + 4)
          ++ (strBytes "want " ++ want_ref ++ [10])
    ∧ (GitProtocolV2Client.want_line want_ref).length + 4 = want_ref.length + 10
    ∧ (want_ref.length + 10 < 65536 →
        pktLineOk (GitProtocolV2Client.wantChunk want_ref)) := by
  have hlen : (GitProtocolV2Client.want_line want_ref).length + 4
      = want_ref.length + 10 := by
    simp only [GitProtocolV2Client.want_line, List.length_append]
    have h5 : (strBytes "want ").length = 5 := by decide
    simp [h5]
    omega
  refine ⟨rfl, rfl, hlen, ?_⟩
  intro hsmall
  have h4 : (pyHex04x ((GitProtocolV2Client.want_line want_ref).length + 4)).length = 4 :=
    pyHex04x_length_eq_four (by omega)
  show (GitProtocolV2Client.wantChunk want_ref).take 4
      = pyHex04x (GitProtocolV2Client.wantChunk want_ref).length
  have hchunk : (GitProtocolV2Client.wantChunk want_ref).length
      = (GitProtocolV2Client.want_line want_ref).length + 4 := by
    simp only [GitProtocolV2Client.wantChunk, List.length_append, h4]
    omega
  rw [hchunk]
  show (pyHex04x ((GitProtocolV2Client.want_line want_ref).length + 4)
        ++ GitProtocolV2Client.want_line want_ref).take 4
      = pyHex04x ((GitProtocolV2Client.want_line want_ref).length + 4)
  have ht := List.take_left
    (pyHex04x ((GitProtocolV2Client.want_line want_ref).length + 4))
    (GitProtocolV2Client.want_line want_ref)
  rw [h4] at ht
  exact ht

/-- C5 witness: the 40-byte all-zero placeholder ref produces a
well-formed want pkt-line. -/
theorem want_pkt_line_correct_witness :
    pktLineOk (GitProtocolV2Client.wantChunk (List.replicate 40 48)) :=
  (want_pkt_line_correct (List.replicate 40 48)).2.2.2 (by simp)

namespace LoadTestRunner

/-- C6: with no successful results every duration statistic is 0; the
latencies [10,20,30,40,50] give p95 = p99 = 50; and in general p95 and p99
are the sorted-list elements at the floor indices 95n/100 and 99n/100. -/
theorem percentile_computation :
    duration_stats [] = ⟨0, 0, 0, 0, 0, 0⟩
    ∧ (duration_stats [10, 20, 30, 40, 50]).p95 = 50
    ∧ (duration_stats [10, 20, 30, 40, 50]).p99 = 50
    ∧ ∀ l : List ℚ, l ≠ [] →
        (duration_stats l).p95 = (sortedAsc l).getD (95 * l.length / 100) 0
        ∧ (duration_stats l).p99 = (sortedAsc l).getD (99 * l.length / 100) 0 := by
  refine ⟨by decide, ?_, ?_, ?_⟩
  · norm_num [duration_stats, pctIndex, sortedAsc, Int.floor_eq_iff]
    decide
  · norm_num [duration_stats, pctIndex, sortedAsc, Int.floor_eq_iff]
    decide
  · intro l hl
    constructor
    · simp [duration_stats, hl, pctIndex95]
    · simp [duration_stats, hl, pctIndex99]

/-- C6 witness: the general percentile equations applied to [10]. -/
theorem percentile_computation_witness :
    (duration_stats [10]).p95
        = (sortedAsc [10]).getD (95 * ([10] : List ℚ).length / 100) 0
    ∧ (duration_stats [10]).p99
        = (sortedAsc [10]).getD (99 * ([10] : List ℚ).length / 100) 0 :=
  percentile_computation.2.2.2 [10] (by simp)

/-- C7: whenever statistics are produced, successful plus failed equals
total_requests, the repo distribution counts sum to total_requests, the
error counts sum to failed, and the server distribution counts exactly the
results with non-empty served_by, hence sum to at most total_requests. -/
theorem statistics_count_invariants :
    ∀ (results : List TestResult) (d : ℚ) (st : Stats),
      compute_statistics results d = some st →
        st.successful + st.failed = st.total_requests
        ∧ sumVals st.repo_distribution = st.total_requests
        ∧ sumVals st.errors = st.failed
        ∧ sumVals st.server_distribution
            = (results.filter (fun r => r.served_by != "")).length
        ∧ sumVals st.server_distribution ≤ st.total_requests := by
  intro results d st h
  obtain ⟨-, -, htot, hsucc, hfail, -, -, hserver, hrepo, herr⟩ :=
    compute_statistics_some h
  have hs : sumVals st.server_distribution
      = (results.filter (fun r => r.served_by != "")).length := by
    rw [hserver]
    simpa [sumVals] using sumVals_foldl_bump_served results []
  refine ⟨?_, ?_, ?_, hs, ?_⟩
  · rw [hsucc, hfail, htot]
    exact length_filter_add_not _ _
  · rw [hrepo, htot]
    simpa [sumVals] using sumVals_foldl_bump (fun r => r.repo) results []
  · rw [herr, hfail]
    simpa [sumVals] using sumVals_foldl_bump (fun r => r.error) (results.filter (fun r => !r.success)) []
  · rw [hs, htot]
    exact List.length_filter_le _ _

/-- C7 witness: the invariants checked on a one-result run. -/
theorem statistics_count_invariants_witness :
    compute_statistics [sampleResult] 1 = some sampleStats
    ∧ (sampleStats.successful + sampleStats.failed = sampleStats.total_requests
      ∧ sumVals sampleStats.repo_distribution = sampleStats.total_requests
      ∧ sumVals sampleStats.errors = sampleStats.failed
      ∧ sumVals sampleStats.server_distribution
          = ([sampleResult].filter (fun r => r.served_by != "")).length
      ∧ sumVals sampleStats.server_distribution ≤ sampleStats.total_requests) := by
  have h : compute_statistics [sampleResult] 1 = some sampleStats := by
    norm_num [compute_statistics, duration_stats, pctIndex, sortedAsc, median,
      listMin, listMax, bump, sampleResult, sampleStats, Int.floor_eq_iff]
    decide
  exact ⟨h, statistics_count_invariants [sampleResult] 1 sampleStats h⟩

/-- C8: every worker emits exactly its request quota of results, the
merged run collection holds num_workers times requests_per_worker results,
and the reported total_requests equals that product. -/
theorem worker_run_request_counts :
    (∀ (repos : List String) (R : Nat) (plan : Nat → RequestPlan repos.length),
        (worker_task repos R plan).length = R)
    ∧ (∀ (repos : List String) (N R : Nat)
          (plans : Nat → Nat → RequestPlan repos.length),
        (run_results repos N R plans).length = N * R)
    ∧ ∀ (repos : List String) (N R : Nat)
          (plans : Nat → Nat → RequestPlan repos.length) (d : ℚ) (st : Stats),
        compute_statistics (run_results repos N R plans) d = some st →
          st.total_requests = N * R := by
  have hw : ∀ (repos : List String) (R : Nat)
      (plan : Nat → RequestPlan repos.length),
      (worker_task repos R plan).length = R := by
    intro repos R plan
    simp [worker_task]
  have hr : ∀ (repos : List String) (N R : Nat)
      (plans : Nat → Nat → RequestPlan repos.length),
      (run_results repos N R plans).length = N * R := by
    intro repos N R plans
    unfold run_results
    rw [List.length_flatten, List.map_map]
    have hmap : ((List.range N).map
          ((fun l => l.length) ∘ fun w => worker_task repos R (plans w)))
        = (List.range N).map (fun _ => R) := by
      refine List.map_congr_left ?_
      intro w _
      exact hw repos R (plans w)
    rw [hmap, sum_map_const_range]
  refine ⟨hw, hr, ?_⟩
  intro repos N R plans d st h
  obtain ⟨-, -, htot, -⟩ := compute_statistics_some h
  rw [htot, hr]

/-- C8 witness: two workers of five requests each over one repository
produce statistics with total_requests = 10. -/
theorem worker_run_request_counts_witness :
    compute_statistics (run_results ["a"] 2 5 samplePlan) 1 = some sampleStats10
    ∧ sampleStats10.total_requests = 2 * 5 := by
  have h : compute_statistics (run_results ["a"] 2 5 samplePlan) 1
      = some sampleStats10 := by
    norm_num [run_results, worker_task, samplePlan, GitProtocolV2Client.ls_refs,
      servedByHeader, compute_statistics, duration_stats, pctIndex, sortedAsc,
      median, listMin, listMax, bump, sampleStats10, Int.floor_eq_iff]
    decide
  exact ⟨h, worker_run_request_counts.2.2 ["a"] 2 5 samplePlan 1 sampleStats10 h⟩

/-- C10: for a non-empty latency list the percentile indices int(n*0.95)
and int(n*0.99) are strictly below the length of the sorted list, so the
indexing in the statistics computation is in bounds. -/
theorem percentile_index_in_bounds :
    ∀ l : List ℚ, l ≠ [] →
      pctIndex l.length (95 / 100) < (sortedAsc l).length
      ∧ pctIndex l.length (99 / 100) < (sortedAsc l).length := by
  intro l hl
  have hn : 0 < l.length := List.length_pos.mpr hl
  constructor
  · rw [sortedAsc_length, pctIndex95]
    rw [Nat.div_lt_iff_lt_mul (by norm_num)]
    omega
  · rw [sortedAsc_length, pctIndex99]
    rw [Nat.div_lt_iff_lt_mul (by norm_num)]
    omega

/-- C10 witness: the bounds at the singleton list [10]. -/
theorem percentile_index_in_bounds_witness :
    pctIndex ([10] : List ℚ).length (95 / 100) < (sortedAsc [10]).length
    ∧ pctIndex ([10] : List ℚ).length (99 / 100) < (sortedAsc [10]).length :=
  percentile_index_in_bounds [10] (by simp)

end LoadTestRunner

end Goblet
